import Mathlib

/-!
Shallow embedding of `src/backend/routers/announcements.py` (announcements
endpoints of the High School Management System API).

Modelling choices:
* A MongoDB/JSON document (Python dict) is an association list
  `List (String × Value)` with insertion-order semantics matching Python
  dicts: assignment replaces the value in place if the key exists, else
  appends; `del` removes the key.
* Python `datetime` objects are `PyDateTime`: a proleptic-Gregorian day
  ordinal (as returned by `date.toordinal`), microseconds within the day,
  and an optional UTC offset in minutes (`none` = offset-naive, as
  produced by `datetime.now()`).  Comparing an offset-naive with an
  offset-aware datetime raises `TypeError` in Python, which the `except
  ValueError` in the source does not catch; the comparison functions
  therefore return `Option Bool`, `none` meaning an uncaught `TypeError`.
* `datetime.fromisoformat` is modelled for the grammar
  `YYYY-MM-DD[<sep>HH[:MM[:SS[.fff[fff]]]][±HH:MM]]` (the format produced
  by `isoformat` and accepted by every CPython version), returning `none`
  on a parse failure (Python: `ValueError`).
* The store is a list of documents; `insert_one` follows pymongo and adds
  the generated `_id` to the passed dict itself; `update_one` with `$set`
  updates the first document whose `_id` matches; `delete_one` removes it.
  Generated object ids and clock readings are passed as extra parameters,
  since they are environment inputs of the Python code.
* `HTTPException(status, detail)` is `Res.err status detail`; an uncaught
  exception (the naive/aware `TypeError`) is `Res.fault`.
-/

/-- BSON/JSON values occurring in announcement documents. -/
inductive Value where
  | vStr : String → Value
  | vNull : Value
  | vOid : String → Value
deriving DecidableEq, Repr

open Value

/-- A Python dict / MongoDB document: insertion-ordered association list. -/
abbrev Doc := List (String × Value)

/-- Python `d[k]` lookup (first occurrence; keys are unique in practice). -/
def getVal : Doc → String → Option Value
  | [], _ => none
  | (k', v) :: d, k => if k' = k then some v else getVal d k

/-- Python `k in d`. -/
def hasKey (d : Doc) (k : String) : Bool := (getVal d k).isSome

/-- Python `d[k] = v`: replace in place if present, else append. -/
def setVal : Doc → String → Value → Doc
  | [], k, v => [(k, v)]
  | (k', v') :: d, k, v => if k' = k then (k', v) :: d else (k', v') :: setVal d k v

/-- Python `del d[k]` (key present in all uses). -/
def delKey : Doc → String → Doc
  | [], _ => []
  | (k', v') :: d, k => if k' = k then d else (k', v') :: delKey d k

/-- Python `str` on the stored values (used only on `_id`, an ObjectId,
whose `str` is its 24-char hex form). -/
def pyStr : Value → String
  | vStr s => s
  | vNull => "None"
  | vOid s => s

/-- Model of `serialize_announcement` (announcements.py lines 18-23): if the dict is
truthy and has `"_id"`, set `announcement["id"] = str(announcement["_id"])`
(appended, `"id"` being fresh) and delete `"_id"`. -/
def serialize_announcement (announcement : Doc) : Doc :=
  match getVal announcement "_id" with
  | some v =>
      if announcement.isEmpty then announcement
      else delKey (setVal announcement "id" (vStr (pyStr v))) "_id"
  | none => announcement

/-- Python `datetime`: day ordinal (`toordinal`), microseconds within the
day, and `utcoffset` in minutes (`none` = offset-naive). -/
structure PyDateTime where
  days : Nat
  usecs : Nat
  offset : Option Int
deriving DecidableEq, Repr

/-- The UTC instant of a datetime in microseconds (for naive datetimes,
the wall-clock instant); Python compares datetimes of equal awareness by
exactly this value. -/
def PyDateTime.instant (d : PyDateTime) : Int :=
  ((d.days * 86400000000 + d.usecs : Nat) : Int) - (d.offset.getD 0) * 60000000

/-- Python `a <= b` on datetimes: `TypeError` (`none`) when one side is
offset-naive and the other offset-aware, else comparison of instants. -/
def pyLE (a b : PyDateTime) : Option Bool :=
  if a.offset.isSome = b.offset.isSome then some (decide (a.instant ≤ b.instant))
  else none

/-- Python `a >= b` on datetimes. -/
def pyGE (a b : PyDateTime) : Option Bool := pyLE b a

/-- Model of `s.replace('Z', '+00:00')`: replace every occurrence of the character
`Z` (the pattern is a single character, so `str.replace` degenerates to a
per-character map). -/
def replaceZ : List Char → List Char
  | [] => []
  | c :: cs =>
      if c = 'Z' then '+' :: '0' :: '0' :: ':' :: '0' :: '0' :: replaceZ cs
      else c :: replaceZ cs

/-- Gregorian leap year. -/
def isLeap (y : Nat) : Bool := y % 4 = 0 && (y % 100 ≠ 0 || y % 400 = 0)

/-- Days in a month of a given year. -/
def daysInMonth (y m : Nat) : Nat :=
  if m = 2 then (if isLeap y then 29 else 28)
  else if m = 4 ∨ m = 6 ∨ m = 9 ∨ m = 11 then 30
  else 31

/-- Days before January 1st of year `y` since day 0 (ordinal of Jan 1 of
year 1 is 1, matching `date.toordinal`). -/
def daysBeforeYear (y : Nat) : Nat :=
  365 * (y - 1) + (y - 1) / 4 - (y - 1) / 100 + (y - 1) / 400

/-- Days before the first of month `m` in year `y`. -/
def daysBeforeMonth (y m : Nat) : Nat :=
  (List.range (m - 1)).foldl (fun acc i => acc + daysInMonth y (i + 1)) 0

/-- Model of `date(y, m, d).toordinal()`. -/
def toOrdinal (y m d : Nat) : Nat := daysBeforeYear y + daysBeforeMonth y m + d

/-- Parse exactly `n` decimal digits, returning their value and the rest. -/
def parseNDigits : Nat → List Char → Nat → Option (Nat × List Char)
  | 0, cs, acc => some (acc, cs)
  | Nat.succ k, c :: cs, acc =>
      if c.isDigit then parseNDigits k cs (acc * 10 + (c.toNat - 48)) else none
  | Nat.succ _, [], _ => none

/-- Require character `c` at the head. -/
def expectChar (c : Char) : List Char → Option (List Char)
  | c' :: cs => if c' = c then some cs else none
  | [] => none

/-- Fractional seconds: exactly 3 or 6 digits, consuming all input,
yielding microseconds. -/
def parseFraction (cs : List Char) : Option Nat :=
  match parseNDigits 3 cs 0 with
  | some (v, []) => some (v * 1000)
  | some (_, rest) =>
      match parseNDigits 3 rest 0 with
      | some (w, []) =>
          match parseNDigits 3 cs 0 with
          | some (v, _) => some (v * 1000 + w)
          | none => none
      | _ => none
  | none => none

/-- Time-of-day part `HH[:MM[:SS[.fff[fff]]]]`, consuming all input;
returns microseconds within the day. -/
def parseTime (cs : List Char) : Option Nat := do
  let (h, r1) ← parseNDigits 2 cs 0
  if h ≥ 24 then none else
  match r1 with
  | [] => some (h * 3600000000)
  | ':' :: r2 =>
    let (mi, r3) ← parseNDigits 2 r2 0
    if mi ≥ 60 then none else
    match r3 with
    | [] => some (h * 3600000000 + mi * 60000000)
    | ':' :: r4 =>
      let (s, r5) ← parseNDigits 2 r4 0
      if s ≥ 60 then none else
      match r5 with
      | [] => some (h * 3600000000 + mi * 60000000 + s * 1000000)
      | '.' :: r6 => do
          let us ← parseFraction r6
          some (h * 3600000000 + mi * 60000000 + s * 1000000 + us)
      | _ => none
    | _ => none
  | _ => none

/-- UTC offset part `HH:MM` (after the sign), consuming all input;
returns minutes. -/
def parseOffset (cs : List Char) : Option Nat := do
  let (oh, r1) ← parseNDigits 2 cs 0
  let r2 ← expectChar ':' r1
  let (om, r3) ← parseNDigits 2 r2 0
  match r3 with
  | [] => if oh ≤ 23 ∧ om ≤ 59 then some (oh * 60 + om) else none
  | _ => none

/-- Split the time portion at the first `+` or `-`, which starts the UTC
offset (neither character can occur earlier in a valid time). -/
def splitTz : List Char → List Char × Option (Int × List Char)
  | [] => ([], none)
  | c :: cs =>
      if c = '+' then ([], some (1, cs))
      else if c = '-' then ([], some (-1, cs))
      else
        let (t, o) := splitTz cs
        (c :: t, o)

/-- Model of `datetime.fromisoformat` on `YYYY-MM-DD[<sep>time[offset]]`; `none`
models the `ValueError` raised on a malformed string. -/
def fromisoformat (cs : List Char) : Option PyDateTime := do
  let (y, r1) ← parseNDigits 4 cs 0
  let r2 ← expectChar '-' r1
  let (mo, r3) ← parseNDigits 2 r2 0
  let r4 ← expectChar '-' r3
  let (dy, r5) ← parseNDigits 2 r4 0
  if 1 ≤ y ∧ 1 ≤ mo ∧ mo ≤ 12 ∧ 1 ≤ dy ∧ dy ≤ daysInMonth y mo then
    match r5 with
    | [] => some ⟨toOrdinal y mo dy, 0, none⟩
    | _sep :: rest =>
        let (tcs, tz) := splitTz rest
        let us ← parseTime tcs
        match tz with
        | none => some ⟨toOrdinal y mo dy, us, none⟩
        | some (sign, ocs) => do
            let om ← parseOffset ocs
            some ⟨toOrdinal y mo dy, us, some (sign * om)⟩
  else none

/-- Outcome of a request handler: normal return, `HTTPException(status,
detail)`, or an uncaught exception (the naive/aware-comparison
`TypeError`). -/
inductive Res (α : Type) where
  | ok : α → Res α
  | err : Nat → String → Res α
  | fault : Res α
deriving DecidableEq, Repr

/-- Outcome of the date-validation block shared verbatim by
`create_announcement` (lines 75-85) and `update_announcement` (lines
116-126). -/
inductive DateCheck where
  | ok : DateCheck
  | httpErr : Nat → String → DateCheck
  | typeFault : DateCheck
deriving DecidableEq, Repr

/-- The `try ... except ValueError` date-validation block of
`create_announcement` / `update_announcement`: parse the Z-normalized
expiration date (`ValueError` becomes "Invalid date format"), require it
strictly after `now` (the value of `datetime.now()`, always offset-naive
in Python), and, when `start_date` is truthy (neither `None` nor the
empty string), parse it and require it strictly before the expiration.
An `Option.none` from `pyLE`/`pyGE` is the uncaught `TypeError`. -/
def validate_dates (expiration_date : String) (start_date : Option String)
    (now : PyDateTime) : DateCheck :=
  match fromisoformat (replaceZ expiration_date.data) with
  | none => DateCheck.httpErr 400 "Invalid date format"
  | some e =>
    match pyLE e now with
    | none => DateCheck.typeFault
    | some true => DateCheck.httpErr 400 "Expiration date must be in the future"
    | some false =>
      match start_date with
      | none => DateCheck.ok
      | some s =>
        if s = "" then DateCheck.ok
        else
          match fromisoformat (replaceZ s.data) with
          | none => DateCheck.httpErr 400 "Invalid date format"
          | some st =>
            match pyGE st e with
            | none => DateCheck.typeFault
            | some true => DateCheck.httpErr 400 "Start date must be before expiration date"
            | some false => DateCheck.ok

/-- Lowercase a hexadecimal digit character. -/
def hexLower (c : Char) : Char :=
  if 'A' ≤ c ∧ c ≤ 'F' then Char.ofNat (c.toNat + 32) else c

/-- Model of `ObjectId(announcement_id)`: a string argument must be 24 hexadecimal
characters (else `InvalidId`, caught by the bare `except`); `str` of the
resulting id is its lowercase hex form. -/
def parseObjectId (s : String) : Option String :=
  if s.length = 24 ∧ s.data.all (fun c => c.isDigit ∨ ('a' ≤ c ∧ c ≤ 'f') ∨ ('A' ≤ c ∧ c ≤ 'F')) then
    some (String.mk (s.data.map hexLower))
  else none

/-- A Python `None`-or-string value as stored in a document. -/
def optToVal : Option String → Value
  | none => vNull
  | some s => vStr s

/-- Does document `d` have `_id` equal to the given object id? -/
def hasOid (oid : String) (d : Doc) : Bool := getVal d "_id" == some (vOid oid)

/-- Model of `find_one` with an `_id` filter over the collection. -/
def findOne (oid : String) : List Doc → Option Doc
  | [] => none
  | d :: ds => if hasOid oid d then some d else findOne oid ds

/-- Apply a `$set` document: set each listed field in order. -/
def applySets (d : Doc) (sets : List (String × Value)) : Doc :=
  sets.foldl (fun d' kv => setVal d' kv.1 kv.2) d

/-- Model of `update_one` with an `_id` filter and a `$set` document: update the first matching
document; also return `matched_count`. -/
def updateFirst (oid : String) (sets : List (String × Value)) :
    List Doc → List Doc × Nat
  | [] => ([], 0)
  | d :: ds =>
      if hasOid oid d then (applySets d sets :: ds, 1)
      else
        let (ds', n) := updateFirst oid sets ds
        (d :: ds', n)

/-- Model of `delete_one` with an `_id` filter: remove the first matching document; also
return `deleted_count`. -/
def deleteFirst (oid : String) : List Doc → List Doc × Nat
  | [] => ([], 0)
  | d :: ds =>
      if hasOid oid d then (ds, 1)
      else
        let (ds', n) := deleteFirst oid ds
        (d :: ds', n)

/-- The server state: the teacher directory (keyed by username) and the
announcements collection. -/
structure DB where
  teachers : List String
  announcements : List Doc
deriving DecidableEq, Repr

/-- Lexicographic comparison of character lists. -/
def charListLe : List Char → List Char → Bool
  | [], _ => true
  | _ :: _, [] => false
  | a :: as, b :: bs => if a < b then true else if b < a then false else charListLe as bs

/-- MongoDB's ordering on string values (bytewise; on the ASCII timestamp
strings at hand this is the lexicographic order of the characters). -/
def strLe (a b : String) : Bool := charListLe a.data b.data

/-- MongoDB match for `{"start_date": None}`: the field is missing or
holds BSON null. -/
def mongoMatchStartNull (d : Doc) : Bool :=
  match getVal d "start_date" with
  | none => true
  | some vNull => true
  | some _ => false

/-- MongoDB match for `{"start_date": {"$lte": t}}`: the field holds a
string that is `≤ t` in the store's lexicographic (binary) order; values
of other BSON types never match a string bound. -/
def mongoMatchStartLte (d : Doc) (t : String) : Bool :=
  match getVal d "start_date" with
  | some (vStr s) => strLe s t
  | _ => false

/-- MongoDB match for `{"expiration_date": {"$gte": t}}`. -/
def mongoMatchExpGte (d : Doc) (t : String) : Bool :=
  match getVal d "expiration_date" with
  | some (vStr s) => strLe t s
  | _ => false

/-- The `$and`/`$or` filter passed to `find` in `get_active_announcements`
(lines 34-44). -/
def mongoActive (t : String) (d : Doc) : Bool :=
  (mongoMatchStartNull d || mongoMatchStartLte d t) && mongoMatchExpGte d t

/-- Model of `get_active_announcements` (lines 26-46): `current_time =
datetime.now().isoformat()` is the parameter `nowIso`; filter the
collection with the query above and serialize each result.  The handler
takes no username and, as its type shows, never changes the state. -/
def get_active_announcements (db : DB) (nowIso : String) : List Doc :=
  (db.announcements.filter (mongoActive nowIso)).map serialize_announcement

/-- Model of `get_all_announcements` (lines 49-58): authenticate, then return every
document serialized. -/
def get_all_announcements (db : DB) (username : String) : Res (List Doc) :=
  if db.teachers.contains username then
    Res.ok (db.announcements.map serialize_announcement)
  else Res.err 401 "Unauthorized"

/-- The dict literal built by `create_announcement` (lines 87-93). -/
def newAnnouncement (message expiration_date username : String)
    (start_date : Option String) (nowIso : String) : Doc :=
  [("message", vStr message),
   ("start_date", optToVal start_date),
   ("expiration_date", vStr expiration_date),
   ("created_by", vStr username),
   ("created_at", vStr nowIso)]

/-- Lines 95-98 of `create_announcement`: `insert_one` adds the generated
`_id` to the dict itself (pymongo mutates its argument) and appends the
document to the collection; then `announcement["id"] =
str(result.inserted_id)` and the dict is returned unserialized. -/
def insertAnnouncement (db : DB) (message expiration_date username : String)
    (start_date : Option String) (nowIso newOid : String) : Res Doc × DB :=
  let announcement := newAnnouncement message expiration_date username start_date nowIso
  let stored := setVal announcement "_id" (vOid newOid)
  (Res.ok (setVal stored "id" (vStr newOid)),
   { db with announcements := db.announcements ++ [stored] })

/-- Model of `create_announcement` (lines 61-98): authenticate, validate dates,
insert.  `now` is the `datetime.now()` sampled at line 77, `nowIso` the
`datetime.now().isoformat()` of line 92, `newOid` the ObjectId generated
by the driver. -/
def create_announcement (db : DB) (message expiration_date username : String)
    (start_date : Option String) (now : PyDateTime) (nowIso newOid : String) :
    Res Doc × DB :=
  if db.teachers.contains username then
    match validate_dates expiration_date start_date now with
    | DateCheck.httpErr c m => (Res.err c m, db)
    | DateCheck.typeFault => (Res.fault, db)
    | DateCheck.ok =>
        insertAnnouncement db message expiration_date username start_date nowIso newOid
  else (Res.err 401 "Unauthorized", db)

/-- The `$set` document of `update_announcement` (lines 137-143). -/
def updSets (message expiration_date username : String)
    (start_date : Option String) (nowIso : String) : List (String × Value) :=
  [("message", vStr message),
   ("start_date", optToVal start_date),
   ("expiration_date", vStr expiration_date),
   ("updated_by", vStr username),
   ("updated_at", vStr nowIso)]

/-- Lines 128-150 of `update_announcement`: parse the id, run
`update_one`, fail NotFound on zero matches, else read the document back
with `find_one` and serialize it (`serialize_announcement` applied to a
`None` result returns `None`, hence the `Option Doc` payload). -/
def updateRest (db : DB) (announcement_id message expiration_date username : String)
    (start_date : Option String) (nowIso : String) : Res (Option Doc) × DB :=
  match parseObjectId announcement_id with
  | none => (Res.err 400 "Invalid announcement ID", db)
  | some oid =>
      let r := updateFirst oid (updSets message expiration_date username start_date nowIso)
                 db.announcements
      let db' := { db with announcements := r.1 }
      if r.2 = 0 then (Res.err 404 "Announcement not found", db')
      else (Res.ok ((findOne oid db'.announcements).map serialize_announcement), db')

/-- Model of `update_announcement` (lines 101-150): authenticate, validate dates,
then the id/update/read-back sequence. -/
def update_announcement (db : DB) (announcement_id message expiration_date username : String)
    (start_date : Option String) (now : PyDateTime) (nowIso : String) :
    Res (Option Doc) × DB :=
  if db.teachers.contains username then
    match validate_dates expiration_date start_date now with
    | DateCheck.httpErr c m => (Res.err c m, db)
    | DateCheck.typeFault => (Res.fault, db)
    | DateCheck.ok =>
        updateRest db announcement_id message expiration_date username start_date nowIso
  else (Res.err 401 "Unauthorized", db)

/-- Model of `delete_announcement` (lines 153-172): authenticate, parse the id,
`delete_one`, fail NotFound on zero deletions, else return the fixed
confirmation dict. -/
def delete_announcement (db : DB) (announcement_id username : String) : Res Doc × DB :=
  if db.teachers.contains username then
    match parseObjectId announcement_id with
    | none => (Res.err 400 "Invalid announcement ID", db)
    | some oid =>
        let r := deleteFirst oid db.announcements
        let db' := { db with announcements := r.1 }
        if r.2 = 0 then (Res.err 404 "Announcement not found", db')
        else (Res.ok [("message", vStr "Announcement deleted successfully")], db')
  else (Res.err 401 "Unauthorized", db)

/-- Modelled from the spec wording of the active predicate (§3): an
announcement is active at time `t` iff (`start_date` is absent or null,
OR `start_date ≤ t`) AND `expiration_date ≥ t`, with the store's string
ordering as the timestamp order. -/
def isActiveSpec (t : String) (d : Doc) : Bool :=
  (match getVal d "start_date" with
   | none => true
   | some vNull => true
   | some (vStr s) => strLe s t
   | some (vOid _) => false)
  && (match getVal d "expiration_date" with
      | some (vStr s) => strLe t s
      | _ => false)

theorem getVal_setVal_self (d : Doc) (k : String) (v : Value) :
    getVal (setVal d k v) k = some v := by
  induction d with
  | nil => simp [setVal, getVal]
  | cons hd tl ih =>
    by_cases h : hd.1 = k
    · simp [setVal, h, getVal]
    · simp [setVal, h, getVal, ih]

theorem getVal_setVal_ne (d : Doc) (k e : String) (v : Value) (h : e ≠ k) :
    getVal (setVal d k v) e = getVal d e := by
  induction d with
  | nil => simp [setVal, getVal, Ne.symm h]
  | cons hd tl ih =>
    by_cases hk : hd.1 = k
    · simp [setVal, hk, getVal, Ne.symm h]
    · simp [setVal, hk, getVal, ih]

theorem delKey_setVal_self (d : Doc) (k : String) (v : Value) :
    delKey (setVal d k v) k = delKey d k := by
  induction d with
  | nil => simp [setVal, delKey]
  | cons hd tl ih =>
    by_cases hk : hd.1 = k
    · simp [setVal, delKey, hk]
    · simp [setVal, delKey, hk, ih]

theorem delKey_setVal_ne (d : Doc) (a b : String) (v : Value) (h : a ≠ b) :
    delKey (setVal d a v) b = setVal (delKey d b) a v := by
  induction d with
  | nil => simp [setVal, delKey, h]
  | cons hd tl ih =>
    by_cases ha : hd.1 = a
    · simp [setVal, delKey, ha, h, Ne.symm h]
    · by_cases hb : hd.1 = b
      · simp [setVal, delKey, ha, hb, Ne.symm h]
      · simp [setVal, delKey, ha, hb, ih]

theorem getVal_applySets_ne (sets : List (String × Value)) (d : Doc) (e : String)
    (h : ∀ kv ∈ sets, kv.1 ≠ e) :
    getVal (applySets d sets) e = getVal d e := by
  induction sets generalizing d with
  | nil => rfl
  | cons hd tl ih =>
    have h1 : getVal (applySets (setVal d hd.1 hd.2) tl) e = getVal (setVal d hd.1 hd.2) e :=
      ih (setVal d hd.1 hd.2) (fun kv hkv => h kv (List.mem_cons_of_mem _ hkv))
    have h2 : getVal (setVal d hd.1 hd.2) e = getVal d e :=
      getVal_setVal_ne d hd.1 e hd.2 (fun he => h hd (List.mem_cons_self _ _) he.symm)
    show getVal (applySets (setVal d hd.1 hd.2) tl) e = getVal d e
    rw [h1, h2]

theorem findOne_eq_none_iff (oid : String) (l : List Doc) :
    findOne oid l = none ↔ ∀ d ∈ l, hasOid oid d = false := by
  induction l with
  | nil => simp [findOne]
  | cons hd tl ih =>
    by_cases h : hasOid oid hd
    · simp [findOne, h]
    · simp [findOne, h, ih]

theorem findOne_some_hasOid (oid : String) (l : List Doc) (d : Doc)
    (h : findOne oid l = some d) : hasOid oid d = true := by
  induction l with
  | nil => simp [findOne] at h
  | cons hd tl ih =>
    by_cases hh : hasOid oid hd
    · simp [findOne, hh] at h
      rw [← h]; exact hh
    · simp [findOne, hh] at h
      exact ih h

theorem updateFirst_of_none (oid : String) (sets : List (String × Value)) (l : List Doc)
    (h : findOne oid l = none) : updateFirst oid sets l = (l, 0) := by
  induction l with
  | nil => rfl
  | cons hd tl ih =>
    by_cases hh : hasOid oid hd
    · simp [findOne, hh] at h
    · simp [findOne, hh] at h
      simp [updateFirst, hh, ih h]

theorem updateFirst_of_some (oid : String) (sets : List (String × Value)) (l : List Doc)
    (d : Doc) (h : findOne oid l = some d)
    (hKeep : hasOid oid (applySets d sets) = true) :
    (updateFirst oid sets l).2 = 1 ∧
    findOne oid (updateFirst oid sets l).1 = some (applySets d sets) := by
  induction l with
  | nil => simp [findOne] at h
  | cons hd tl ih =>
    by_cases hh : hasOid oid hd
    · simp [findOne, hh] at h
      subst h
      simp [updateFirst, hh, findOne, hKeep]
    · simp [findOne, hh] at h
      have := ih h
      simp [updateFirst, hh, findOne, this]

theorem deleteFirst_of_none (oid : String) (l : List Doc)
    (h : findOne oid l = none) : deleteFirst oid l = (l, 0) := by
  induction l with
  | nil => rfl
  | cons hd tl ih =>
    by_cases hh : hasOid oid hd
    · simp [findOne, hh] at h
    · simp [findOne, hh] at h
      simp [deleteFirst, hh, ih h]

theorem deleteFirst_snd_of_some (oid : String) (l : List Doc) (d : Doc)
    (h : findOne oid l = some d) : (deleteFirst oid l).2 = 1 := by
  induction l with
  | nil => simp [findOne] at h
  | cons hd tl ih =>
    by_cases hh : hasOid oid hd
    · simp [deleteFirst, hh]
    · simp [findOne, hh] at h
      simp [deleteFirst, hh, ih h]

theorem findOne_deleteFirst_of_unique (oid : String) (l : List Doc)
    (hU : (l.filter (hasOid oid)).length ≤ 1) :
    findOne oid (deleteFirst oid l).1 = none := by
  induction l with
  | nil => simp [deleteFirst, findOne]
  | cons hd tl ih =>
    by_cases hh : hasOid oid hd
    · simp [deleteFirst, hh]
      rw [findOne_eq_none_iff]
      intro d hd'
      have hlen : (tl.filter (hasOid oid)).length = 0 := by
        rw [List.filter_cons_of_pos hh, List.length_cons] at hU
        omega
      have : tl.filter (hasOid oid) = [] := List.length_eq_zero.mp hlen
      have := List.filter_eq_nil_iff.mp this d hd'
      simpa using this
    · simp [deleteFirst, hh, findOne]
      apply ih
      simpa [List.filter_cons, hh] using hU

/-- A concrete state with one registered teacher and no announcements. -/
def db0 : DB := ⟨["alice"], []⟩

/-- A concrete offset-naive `datetime.now()` value (2026-01-01T00:00:00,
day ordinal 739617). -/
def now0 : PyDateTime := ⟨739617, 0, none⟩

/-- A well-formed 24-hex-character ObjectId string. -/
def oid0 : String := "507f1f77bcf86cd799439011"

theorem mongoActive_eq_isActiveSpec (t : String) (d : Doc) :
    mongoActive t d = isActiveSpec t d := by
  unfold mongoActive isActiveSpec mongoMatchStartNull mongoMatchStartLte mongoMatchExpGte
  cases hs : getVal d "start_date" with
  | none => rfl
  | some v => cases v <;> rfl

/-- Claim C1: `get_active_announcements` returns exactly the serializations
of the stored announcements satisfying the active predicate (start absent
or at most now, and expiration at least now, in the store's string order)
at the sampled current time; the operation takes no username and, by its
type `DB → String → List Doc`, cannot modify the state. -/
theorem list_active_returns_exactly_active (db : DB) (t : String) (a : Doc) :
    a ∈ get_active_announcements db t ↔
      ∃ d, d ∈ db.announcements ∧ isActiveSpec t d = true ∧ a = serialize_announcement d := by
  simp only [get_active_announcements, List.mem_map, List.mem_filter, mongoActive_eq_isActiveSpec]
  constructor
  · rintro ⟨d, ⟨hmem, hact⟩, rfl⟩
    exact ⟨d, hmem, hact, rfl⟩
  · rintro ⟨d, hmem, hact, rfl⟩
    exact ⟨d, ⟨hmem, hact⟩, rfl⟩

/-- Claim C2 (code bug): for a known teacher, `create` with
`expiration_date = "2000-01-01T00:00:00Z"` does NOT fail with 400
"Expiration date must be in the future": the Z-normalized string parses to
an offset-aware datetime, and comparing it against the offset-naive
`datetime.now()` raises a `TypeError` that the `except ValueError` does
not catch, so the request dies with an unhandled fault.  The same past
date WITHOUT the UTC designator does produce the documented 400 error,
showing the validation itself (and hence the spec's intent) and isolating
the slip to the aware/naive comparison. -/
theorem create_zulu_expiration_faults :
    create_announcement db0 "hello" "2000-01-01T00:00:00Z" "alice" none now0
        "2026-01-01T00:00:00" oid0 = (Res.fault, db0)
    ∧ create_announcement db0 "hello" "2000-01-01T00:00:00" "alice" none now0
        "2026-01-01T00:00:00" oid0
      = (Res.err 400 "Expiration date must be in the future", db0) :=
  ⟨rfl, rfl⟩

/-- Claim C3: when the username does not resolve to a teacher, create,
update, delete and list_all all fail with 401 Unauthorized regardless of
every other argument (dates need not parse, the id may be malformed), and
the state is returned unchanged. -/
theorem unknown_username_unauthorized (db : DB) (aid m e u iso oid : String)
    (sd : Option String) (now : PyDateTime)
    (h : u ∉ db.teachers) :
    create_announcement db m e u sd now iso oid = (Res.err 401 "Unauthorized", db)
    ∧ update_announcement db aid m e u sd now iso = (Res.err 401 "Unauthorized", db)
    ∧ delete_announcement db aid u = (Res.err 401 "Unauthorized", db)
    ∧ get_all_announcements db u = Res.err 401 "Unauthorized" := by
  simp [create_announcement, update_announcement, delete_announcement,
    get_all_announcements, h]

/-- Witness for C3 at a concrete state: an unregistered username with an
unparseable date and a malformed id still yields exactly 401. -/
theorem unknown_username_unauthorized_witness :
    create_announcement db0 "m" "bad" "mallory" none now0 "t" oid0
      = (Res.err 401 "Unauthorized", db0)
    ∧ update_announcement db0 "not-an-id" "m" "bad" "mallory" none now0 "t"
      = (Res.err 401 "Unauthorized", db0)
    ∧ delete_announcement db0 "not-an-id" "mallory" = (Res.err 401 "Unauthorized", db0)
    ∧ get_all_announcements db0 "mallory" = Res.err 401 "Unauthorized" :=
  unknown_username_unauthorized db0 "not-an-id" "m" "bad" "mallory" "t" oid0 none now0
    (by decide)

/-- Claim C4: with a known teacher and a malformed announcement id, the
update outcome is decided by date validation first (any date error, and
even the uncaught naive/aware fault, preempts the id check), and only
when the dates pass is the malformed id reported as 400 "Invalid
announcement ID"; delete reports the malformed id the same way.  In all
cases the result is never NotFound and the state is unchanged. -/
theorem malformed_id_invalid_input (db : DB) (aid m e u iso : String)
    (sd : Option String) (now : PyDateTime)
    (hT : u ∈ db.teachers) (hId : parseObjectId aid = none) :
    update_announcement db aid m e u sd now iso =
      ((match validate_dates e sd now with
        | DateCheck.ok => Res.err 400 "Invalid announcement ID"
        | DateCheck.httpErr c msg => Res.err c msg
        | DateCheck.typeFault => Res.fault), db)
    ∧ delete_announcement db aid u = (Res.err 400 "Invalid announcement ID", db) := by
  constructor
  · unfold update_announcement updateRest
    cases validate_dates e sd now <;> simp [hT, hId]
  · unfold delete_announcement
    simp [hT, hId]

/-- Witness for C4 at a concrete state: known teacher, valid future
expiration date, malformed id. -/
theorem malformed_id_invalid_input_witness :
    update_announcement db0 "not-an-objectid" "m" "2999-01-01T00:00:00" "alice" none now0 "t" =
      ((match validate_dates "2999-01-01T00:00:00" none now0 with
        | DateCheck.ok => Res.err 400 "Invalid announcement ID"
        | DateCheck.httpErr c msg => Res.err c msg
        | DateCheck.typeFault => Res.fault), db0)
    ∧ delete_announcement db0 "not-an-objectid" "alice"
      = (Res.err 400 "Invalid announcement ID", db0) :=
  malformed_id_invalid_input db0 "not-an-objectid" "m" "2999-01-01T00:00:00" "alice" "t"
    none now0 (by decide) (by decide)

/-- The document returned by a successful create in the concrete C5
scenario: it still carries the store-native `_id` (an ObjectId) next to
the string `id`, because `insert_one` mutated the dict and
`create_announcement` returns it without `serialize_announcement`. -/
def leakedCreateReturn : Doc :=
  [("message", vStr "hello"),
   ("start_date", vNull),
   ("expiration_date", vStr "2999-01-01T00:00:00"),
   ("created_by", vStr "alice"),
   ("created_at", vStr "2026-01-01T00:00:00"),
   ("_id", vOid oid0),
   ("id", vStr oid0)]

/-- Claim C5 (code bug): a successful `create` returns the inserted dict
itself, which pymongo's `insert_one` has extended with the `_id`
ObjectId; unlike every other operation, create never applies
`serialize_announcement`, so the returned document contains BOTH `id` and
the store-native `_id`, contradicting the documented serialized shape
(and the very purpose of the `serialize_announcement` helper). -/
theorem create_leaks_store_native_id :
    create_announcement db0 "hello" "2999-01-01T00:00:00" "alice" none now0
        "2026-01-01T00:00:00" oid0
      = (Res.ok leakedCreateReturn,
         ⟨["alice"], [leakedCreateReturn.dropLast]⟩)
    ∧ hasKey leakedCreateReturn "_id" = true
    ∧ hasKey leakedCreateReturn "id" = true
    ∧ hasKey (serialize_announcement leakedCreateReturn.dropLast) "_id" = false :=
  ⟨rfl, rfl, rfl, rfl⟩

/-- Claim C6 counterexample: with a known teacher, `start_date ≥
expiration_date` (both parse fine) does NOT always yield 400 "Start date
must be before expiration date": when the expiration date is itself in
the past, the expiration check fires first and the message is
"Expiration date must be in the future". -/
theorem start_after_expiration_gets_expiration_error :
    create_announcement db0 "m" "2000-01-01T00:00:00" "alice"
        (some "2001-01-01T00:00:00") now0 "t" oid0
      = (Res.err 400 "Expiration date must be in the future", db0)
    ∧ (Res.err 400 "Expiration date must be in the future" : Res Doc)
        ≠ Res.err 400 "Start date must be before expiration date" :=
  ⟨rfl, by decide⟩

/-- Claim C6 as amended: with a known teacher, once the expiration check
has passed (the expiration date parses to `x` and compares `false`
against `now`, which also rules out the naive/aware fault at that step)
and a non-empty `start_date` is given, both create and update either fail
400 "Invalid date format" (start does not parse), fault (start parses
offset-aware while the expiration is naive, the uncaught `TypeError`), or
fail 400 "Start date must be before expiration date" (start ≥
expiration); only when the parsed start is strictly before the expiration
do they proceed to persistence, and in every failure case the state `db`
is returned unchanged. -/
theorem start_validation_after_expiration_check (db : DB) (aid m e u s iso oid : String)
    (now x : PyDateTime)
    (hT : u ∈ db.teachers)
    (hE : fromisoformat (replaceZ e.data) = some x)
    (hF : pyLE x now = some false)
    (hs : s ≠ "") :
    create_announcement db m e u (some s) now iso oid =
      (match fromisoformat (replaceZ s.data) with
       | none => (Res.err 400 "Invalid date format", db)
       | some st =>
         match pyGE st x with
         | none => (Res.fault, db)
         | some true => (Res.err 400 "Start date must be before expiration date", db)
         | some false => insertAnnouncement db m e u (some s) iso oid)
    ∧ update_announcement db aid m e u (some s) now iso =
      (match fromisoformat (replaceZ s.data) with
       | none => (Res.err 400 "Invalid date format", db)
       | some st =>
         match pyGE st x with
         | none => (Res.fault, db)
         | some true => (Res.err 400 "Start date must be before expiration date", db)
         | some false => updateRest db aid m e u (some s) iso) := by
  cases hp : fromisoformat (replaceZ s.data) with
  | none =>
      have hv : validate_dates e (some s) now = DateCheck.httpErr 400 "Invalid date format" := by
        simp [validate_dates, hE, hF, hs, hp]
      simp [create_announcement, update_announcement, hT, hv, hp]
  | some st =>
      cases hge : pyGE st x with
      | none =>
          have hv : validate_dates e (some s) now = DateCheck.typeFault := by
            simp [validate_dates, hE, hF, hs, hp, hge]
          simp [create_announcement, update_announcement, hT, hv, hp, hge]
      | some b =>
          cases b with
          | true =>
              have hv : validate_dates e (some s) now
                  = DateCheck.httpErr 400 "Start date must be before expiration date" := by
                simp [validate_dates, hE, hF, hs, hp, hge]
              simp [create_announcement, update_announcement, hT, hv, hp, hge]
          | false =>
              have hv : validate_dates e (some s) now = DateCheck.ok := by
                simp [validate_dates, hE, hF, hs, hp, hge]
              simp [create_announcement, update_announcement, hT, hv, hp, hge]

/-- Witness for the amended C6: future expiration 2999-01-02, start
2999-01-03 ≥ expiration, yielding exactly the start-ordering error. -/
theorem start_validation_after_expiration_check_witness :
    create_announcement db0 "m" "2999-01-02T00:00:00" "alice"
        (some "2999-01-03T00:00:00") now0 "t" oid0 =
      (match fromisoformat (replaceZ "2999-01-03T00:00:00".data) with
       | none => (Res.err 400 "Invalid date format", db0)
       | some st =>
         match pyGE st ⟨1094999, 0, none⟩ with
         | none => (Res.fault, db0)
         | some true => (Res.err 400 "Start date must be before expiration date", db0)
         | some false => insertAnnouncement db0 "m" "2999-01-02T00:00:00" "alice"
             (some "2999-01-03T00:00:00") "t" oid0)
    ∧ update_announcement db0 oid0 "m" "2999-01-02T00:00:00" "alice"
        (some "2999-01-03T00:00:00") now0 "t" =
      (match fromisoformat (replaceZ "2999-01-03T00:00:00".data) with
       | none => (Res.err 400 "Invalid date format", db0)
       | some st =>
         match pyGE st ⟨1094999, 0, none⟩ with
         | none => (Res.fault, db0)
         | some true => (Res.err 400 "Start date must be before expiration date", db0)
         | some false => updateRest db0 oid0 "m" "2999-01-02T00:00:00" "alice"
             (some "2999-01-03T00:00:00") "t") :=
  start_validation_after_expiration_check db0 oid0 "m" "2999-01-02T00:00:00" "alice"
    "2999-01-03T00:00:00" "t" oid0 now0 ⟨1094999, 0, none⟩ (by decide) (by decide)
    (by decide) (by decide)

/-- Claim C8: with a known teacher and passing date validation, create
persists exactly the input strings (message, start_date, expiration_date
verbatim), `created_by` equal to the username, and the freshly sampled
`created_at`; the store gains exactly that document (with the assigned
`_id`), and the returned object is the same document with the string `id`
appended. -/
theorem create_persists_verbatim (db : DB) (m e u iso oid : String)
    (sd : Option String) (now : PyDateTime)
    (hT : u ∈ db.teachers)
    (hV : validate_dates e sd now = DateCheck.ok) :
    create_announcement db m e u sd now iso oid =
      (Res.ok (newAnnouncement m e u sd iso ++ [("_id", vOid oid), ("id", vStr oid)]),
       { db with announcements :=
           db.announcements ++ [newAnnouncement m e u sd iso ++ [("_id", vOid oid)]] }) := by
  unfold create_announcement insertAnnouncement
  rw [hV]
  simp [hT, newAnnouncement, setVal]

/-- Witness for C8: concrete create with a start date, showing the
verbatim strings, `created_by`, `created_at`, id assignment, and the
store extension. -/
theorem create_persists_verbatim_witness :
    create_announcement db0 "hello" "2999-01-02T00:00:00" "alice"
        (some "2999-01-01T00:00:00") now0 "2026-01-01T00:00:00" oid0 =
      (Res.ok (newAnnouncement "hello" "2999-01-02T00:00:00" "alice"
          (some "2999-01-01T00:00:00") "2026-01-01T00:00:00"
            ++ [("_id", vOid oid0), ("id", vStr oid0)]),
       { db0 with announcements :=
           db0.announcements ++ [newAnnouncement "hello" "2999-01-02T00:00:00" "alice"
             (some "2999-01-01T00:00:00") "2026-01-01T00:00:00" ++ [("_id", vOid oid0)]] }) :=
  create_persists_verbatim db0 "hello" "2999-01-02T00:00:00" "alice" "2026-01-01T00:00:00"
    oid0 (some "2999-01-01T00:00:00") now0 (by decide) (by decide)

/-- Claim C7: with a known teacher, a well-formed id, and the store
invariant that `_id` values are unique (at most one match), delete fails
404 exactly when `deleted_count` is zero, i.e. when no document carries
the id; on success it returns only the fixed confirmation message and
removes the document, so an immediately repeated delete of the same id
fails 404. -/
theorem delete_notfound_iff_zero_deleted (db : DB) (aid u oid : String)
    (hT : u ∈ db.teachers)
    (hId : parseObjectId aid = some oid)
    (hU : (db.announcements.filter (hasOid oid)).length ≤ 1) :
    delete_announcement db aid u =
      (match findOne oid db.announcements with
       | none => (Res.err 404 "Announcement not found", db)
       | some _ => (Res.ok [("message", vStr "Announcement deleted successfully")],
                    { db with announcements := (deleteFirst oid db.announcements).1 }))
    ∧ ((deleteFirst oid db.announcements).2 = 0 ↔ findOne oid db.announcements = none)
    ∧ delete_announcement { db with announcements := (deleteFirst oid db.announcements).1 } aid u
        = (Res.err 404 "Announcement not found",
           { db with announcements := (deleteFirst oid db.announcements).1 }) := by
  have hiff : (deleteFirst oid db.announcements).2 = 0 ↔ findOne oid db.announcements = none := by
    constructor
    · intro h0
      cases hf : findOne oid db.announcements with
      | none => rfl
      | some d =>
          rw [deleteFirst_snd_of_some oid db.announcements d hf] at h0
          exact absurd h0 one_ne_zero
    · intro hn
      rw [deleteFirst_of_none oid db.announcements hn]
  refine ⟨?_, hiff, ?_⟩
  · cases hf : findOne oid db.announcements with
    | none =>
        have hd0 := deleteFirst_of_none oid db.announcements hf
        simp [delete_announcement, hT, hId, hd0]
    | some d =>
        have h1 := deleteFirst_snd_of_some oid db.announcements d hf
        simp [delete_announcement, hT, hId, h1]
  · have hnone : findOne oid (deleteFirst oid db.announcements).1 = none :=
      findOne_deleteFirst_of_unique oid db.announcements hU
    have hd0 := deleteFirst_of_none oid (deleteFirst oid db.announcements).1 hnone
    simp [delete_announcement, hT, hId, hd0]

/-- Witness for C7: a store holding exactly one announcement with id
`oid0`; the first delete succeeds with the confirmation message, the
second fails 404. -/
theorem delete_notfound_iff_zero_deleted_witness :
    delete_announcement ⟨["alice"], [[("message", vStr "old"), ("_id", vOid oid0)]]⟩ oid0 "alice" =
      (match findOne oid0 [[("message", vStr "old"), ("_id", vOid oid0)]] with
       | none => (Res.err 404 "Announcement not found",
                  (⟨["alice"], [[("message", vStr "old"), ("_id", vOid oid0)]]⟩ : DB))
       | some _ => (Res.ok [("message", vStr "Announcement deleted successfully")],
                    { (⟨["alice"], [[("message", vStr "old"), ("_id", vOid oid0)]]⟩ : DB) with
                      announcements :=
                        (deleteFirst oid0 [[("message", vStr "old"), ("_id", vOid oid0)]]).1 }))
    ∧ ((deleteFirst oid0 [[("message", vStr "old"), ("_id", vOid oid0)]]).2 = 0 ↔
        findOne oid0 [[("message", vStr "old"), ("_id", vOid oid0)]] = none)
    ∧ delete_announcement
        { (⟨["alice"], [[("message", vStr "old"), ("_id", vOid oid0)]]⟩ : DB) with
          announcements := (deleteFirst oid0 [[("message", vStr "old"), ("_id", vOid oid0)]]).1 }
        oid0 "alice"
        = (Res.err 404 "Announcement not found",
           { (⟨["alice"], [[("message", vStr "old"), ("_id", vOid oid0)]]⟩ : DB) with
             announcements := (deleteFirst oid0 [[("message", vStr "old"), ("_id", vOid oid0)]]).1 }) :=
  delete_notfound_iff_zero_deleted ⟨["alice"], [[("message", vStr "old"), ("_id", vOid oid0)]]⟩
    oid0 "alice" oid0 (by decide) (by decide) (by decide)

/-- Remove the five update-overwritten keys from a document (what is left
must be unchanged by an update for the frame property to hold). -/
def stripUpd (d : Doc) : Doc :=
  delKey (delKey (delKey (delKey (delKey d "message") "start_date") "expiration_date")
    "updated_by") "updated_at"

theorem stripUpd_applySets_upd (d : Doc) (m e u iso : String) (sd : Option String) :
    stripUpd (applySets d (updSets m e u sd iso)) = stripUpd d := by
  simp [applySets, updSets, stripUpd, delKey_setVal_self, delKey_setVal_ne]

/-- Claim C9: a successful update of an existing announcement overwrites
exactly `message`, `start_date`, `expiration_date`, `updated_by`,
`updated_at` (the five keys of the `$set` document, shown receiving the
new values), leaves every other field unchanged (`_id`, `created_by`,
`created_at` explicitly, and the whole document after stripping the five
overwritten keys), and returns the post-update document as read back from
the store by `find_one`. -/
theorem update_overwrites_exactly (db : DB) (aid m e u iso oid : String)
    (sd : Option String) (now : PyDateTime) (d : Doc)
    (hT : u ∈ db.teachers)
    (hV : validate_dates e sd now = DateCheck.ok)
    (hId : parseObjectId aid = some oid)
    (hF : findOne oid db.announcements = some d) :
    update_announcement db aid m e u sd now iso =
      (Res.ok (some (serialize_announcement (applySets d (updSets m e u sd iso)))),
       { db with announcements := (updateFirst oid (updSets m e u sd iso) db.announcements).1 })
    ∧ findOne oid (updateFirst oid (updSets m e u sd iso) db.announcements).1
        = some (applySets d (updSets m e u sd iso))
    ∧ getVal (applySets d (updSets m e u sd iso)) "_id" = getVal d "_id"
    ∧ getVal (applySets d (updSets m e u sd iso)) "created_by" = getVal d "created_by"
    ∧ getVal (applySets d (updSets m e u sd iso)) "created_at" = getVal d "created_at"
    ∧ stripUpd (applySets d (updSets m e u sd iso)) = stripUpd d
    ∧ getVal (applySets d (updSets m e u sd iso)) "message" = some (vStr m)
    ∧ getVal (applySets d (updSets m e u sd iso)) "start_date" = some (optToVal sd)
    ∧ getVal (applySets d (updSets m e u sd iso)) "expiration_date" = some (vStr e)
    ∧ getVal (applySets d (updSets m e u sd iso)) "updated_by" = some (vStr u)
    ∧ getVal (applySets d (updSets m e u sd iso)) "updated_at" = some (vStr iso) := by
  have hid : getVal (applySets d (updSets m e u sd iso)) "_id" = getVal d "_id" := by
    simp [applySets, updSets, getVal_setVal_ne]
  have hkeep : hasOid oid (applySets d (updSets m e u sd iso)) = true := by
    unfold hasOid
    rw [hid]
    exact findOne_some_hasOid oid db.announcements d hF
  obtain ⟨h1, h2⟩ := updateFirst_of_some oid (updSets m e u sd iso) db.announcements d hF hkeep
  refine ⟨?_, h2, hid, ?_, ?_, stripUpd_applySets_upd d m e u iso sd, ?_, ?_, ?_, ?_, ?_⟩
  · unfold update_announcement updateRest
    rw [hV]
    simp [hT, hId, h1, h2]
  · simp [applySets, updSets, getVal_setVal_ne]
  · simp [applySets, updSets, getVal_setVal_ne]
  · simp [applySets, updSets, getVal_setVal_ne, getVal_setVal_self]
  · simp [applySets, updSets, getVal_setVal_ne, getVal_setVal_self]
  · simp [applySets, updSets, getVal_setVal_ne, getVal_setVal_self]
  · simp [applySets, updSets, getVal_setVal_ne, getVal_setVal_self]
  · simp [applySets, updSets, getVal_setVal_self]

/-- Witness for C9: updating the single stored announcement with fresh
field values; all conjuncts evaluated at the concrete state. -/
theorem update_overwrites_exactly_witness :
    update_announcement ⟨["alice"],
        [[("message", vStr "old"), ("created_by", vStr "alice"),
          ("created_at", vStr "2025-01-01T00:00:00"), ("_id", vOid oid0)]]⟩
        oid0 "new" "2999-01-01T00:00:00" "alice" none now0 "2026-01-01T00:00:00" =
      (Res.ok (some (serialize_announcement (applySets
          [("message", vStr "old"), ("created_by", vStr "alice"),
           ("created_at", vStr "2025-01-01T00:00:00"), ("_id", vOid oid0)]
          (updSets "new" "2999-01-01T00:00:00" "alice" none "2026-01-01T00:00:00")))),
       { (⟨["alice"],
           [[("message", vStr "old"), ("created_by", vStr "alice"),
             ("created_at", vStr "2025-01-01T00:00:00"), ("_id", vOid oid0)]]⟩ : DB) with
         announcements := (updateFirst oid0
           (updSets "new" "2999-01-01T00:00:00" "alice" none "2026-01-01T00:00:00")
           [[("message", vStr "old"), ("created_by", vStr "alice"),
             ("created_at", vStr "2025-01-01T00:00:00"), ("_id", vOid oid0)]]).1 })
    ∧ findOne oid0 (updateFirst oid0
          (updSets "new" "2999-01-01T00:00:00" "alice" none "2026-01-01T00:00:00")
          [[("message", vStr "old"), ("created_by", vStr "alice"),
            ("created_at", vStr "2025-01-01T00:00:00"), ("_id", vOid oid0)]]).1
        = some (applySets
            [("message", vStr "old"), ("created_by", vStr "alice"),
             ("created_at", vStr "2025-01-01T00:00:00"), ("_id", vOid oid0)]
            (updSets "new" "2999-01-01T00:00:00" "alice" none "2026-01-01T00:00:00"))
    ∧ getVal (applySets
          [("message", vStr "old"), ("created_by", vStr "alice"),
           ("created_at", vStr "2025-01-01T00:00:00"), ("_id", vOid oid0)]
          (updSets "new" "2999-01-01T00:00:00" "alice" none "2026-01-01T00:00:00")) "_id"
        = getVal [("message", vStr "old"), ("created_by", vStr "alice"),
            ("created_at", vStr "2025-01-01T00:00:00"), ("_id", vOid oid0)] "_id"
    ∧ getVal (applySets
          [("message", vStr "old"), ("created_by", vStr "alice"),
           ("created_at", vStr "2025-01-01T00:00:00"), ("_id", vOid oid0)]
          (updSets "new" "2999-01-01T00:00:00" "alice" none "2026-01-01T00:00:00")) "created_by"
        = getVal [("message", vStr "old"), ("created_by", vStr "alice"),
            ("created_at", vStr "2025-01-01T00:00:00"), ("_id", vOid oid0)] "created_by"
    ∧ getVal (applySets
          [("message", vStr "old"), ("created_by", vStr "alice"),
           ("created_at", vStr "2025-01-01T00:00:00"), ("_id", vOid oid0)]
          (updSets "new" "2999-01-01T00:00:00" "alice" none "2026-01-01T00:00:00")) "created_at"
        = getVal [("message", vStr "old"), ("created_by", vStr "alice"),
            ("created_at", vStr "2025-01-01T00:00:00"), ("_id", vOid oid0)] "created_at"
    ∧ stripUpd (applySets
          [("message", vStr "old"), ("created_by", vStr "alice"),
           ("created_at", vStr "2025-01-01T00:00:00"), ("_id", vOid oid0)]
          (updSets "new" "2999-01-01T00:00:00" "alice" none "2026-01-01T00:00:00"))
        = stripUpd [("message", vStr "old"), ("created_by", vStr "alice"),
            ("created_at", vStr "2025-01-01T00:00:00"), ("_id", vOid oid0)]
    ∧ getVal (applySets
          [("message", vStr "old"), ("created_by", vStr "alice"),
           ("created_at", vStr "2025-01-01T00:00:00"), ("_id", vOid oid0)]
          (updSets "new" "2999-01-01T00:00:00" "alice" none "2026-01-01T00:00:00")) "message"
        = some (vStr "new")
    ∧ getVal (applySets
          [("message", vStr "old"), ("created_by", vStr "alice"),
           ("created_at", vStr "2025-01-01T00:00:00"), ("_id", vOid oid0)]
          (updSets "new" "2999-01-01T00:00:00" "alice" none "2026-01-01T00:00:00")) "start_date"
        = some (optToVal none)
    ∧ getVal (applySets
          [("message", vStr "old"), ("created_by", vStr "alice"),
           ("created_at", vStr "2025-01-01T00:00:00"), ("_id", vOid oid0)]
          (updSets "new" "2999-01-01T00:00:00" "alice" none "2026-01-01T00:00:00")) "expiration_date"
        = some (vStr "2999-01-01T00:00:00")
    ∧ getVal (applySets
          [("message", vStr "old"), ("created_by", vStr "alice"),
           ("created_at", vStr "2025-01-01T00:00:00"), ("_id", vOid oid0)]
          (updSets "new" "2999-01-01T00:00:00" "alice" none "2026-01-01T00:00:00")) "updated_by"
        = some (vStr "alice")
    ∧ getVal (applySets
          [("message", vStr "old"), ("created_by", vStr "alice"),
           ("created_at", vStr "2025-01-01T00:00:00"), ("_id", vOid oid0)]
          (updSets "new" "2999-01-01T00:00:00" "alice" none "2026-01-01T00:00:00")) "updated_at"
        = some (vStr "2026-01-01T00:00:00") :=
  update_overwrites_exactly
    ⟨["alice"],
      [[("message", vStr "old"), ("created_by", vStr "alice"),
        ("created_at", vStr "2025-01-01T00:00:00"), ("_id", vOid oid0)]]⟩
    oid0 "new" "2999-01-01T00:00:00" "alice" "2026-01-01T00:00:00" oid0 none now0
    [("message", vStr "old"), ("created_by", vStr "alice"),
     ("created_at", vStr "2025-01-01T00:00:00"), ("_id", vOid oid0)]
    (by decide) (by decide) (by decide) (by decide)

/-- Claim C10: an empty-string `start_date` is falsy in Python, so create
(and update, which shares `validate_dates`) skips the start-versus-
expiration validation entirely — `validate_dates` with `some ""` equals
`validate_dates` with `none` for every input — yet the empty string is
persisted verbatim as `start_date`.  The stored value is a string, not
null, so `list_active`'s `{start_date: None}` branch does not match it,
but `"" ≤ t` holds in the store's string order for every `t`, so the
`$lte` branch always matches and the announcement's activity reduces to
its expiration check alone: it behaves as already started. -/
theorem empty_start_date_bypasses_validation (db : DB) (m e u iso oid t : String)
    (now x : PyDateTime)
    (hT : u ∈ db.teachers)
    (hE : fromisoformat (replaceZ e.data) = some x)
    (hF : pyLE x now = some false) :
    validate_dates e (some "") now = validate_dates e none now
    ∧ create_announcement db m e u (some "") now iso oid =
        (Res.ok (newAnnouncement m e u (some "") iso ++ [("_id", vOid oid), ("id", vStr oid)]),
         { db with announcements :=
             db.announcements ++ [newAnnouncement m e u (some "") iso ++ [("_id", vOid oid)]] })
    ∧ getVal (newAnnouncement m e u (some "") iso ++ [("_id", vOid oid)]) "start_date"
        = some (vStr "")
    ∧ mongoMatchStartNull (newAnnouncement m e u (some "") iso ++ [("_id", vOid oid)]) = false
    ∧ mongoMatchStartLte (newAnnouncement m e u (some "") iso ++ [("_id", vOid oid)]) t = true
    ∧ mongoActive t (newAnnouncement m e u (some "") iso ++ [("_id", vOid oid)])
        = mongoMatchExpGte (newAnnouncement m e u (some "") iso ++ [("_id", vOid oid)]) t := by
  have hv0 : validate_dates e (some "") now = validate_dates e none now := by
    unfold validate_dates
    cases fromisoformat (replaceZ e.data) with
    | none => rfl
    | some y =>
        cases pyLE y now with
        | none => rfl
        | some b => cases b <;> rfl
  have hvok : validate_dates e (some "") now = DateCheck.ok := by
    rw [hv0]
    simp [validate_dates, hE, hF]
  have hlte : mongoMatchStartLte (newAnnouncement m e u (some "") iso ++ [("_id", vOid oid)]) t
      = true := by
    have hgv : getVal (newAnnouncement m e u (some "") iso ++ [("_id", vOid oid)]) "start_date"
        = some (vStr "") := rfl
    simp only [mongoMatchStartLte, hgv]
    rfl
  refine ⟨hv0, ?_, rfl, rfl, hlte, ?_⟩
  · unfold create_announcement insertAnnouncement
    rw [hvok]
    simp [hT, newAnnouncement, setVal]
  · simp [mongoActive, hlte]

/-- Witness for C10 at concrete inputs, including a concrete probe time
`t` at which the stored empty-start announcement is "already started". -/
theorem empty_start_date_bypasses_validation_witness :
    validate_dates "2999-01-01T00:00:00" (some "") now0
      = validate_dates "2999-01-01T00:00:00" none now0
    ∧ create_announcement db0 "hello" "2999-01-01T00:00:00" "alice" (some "") now0
        "2026-01-01T00:00:00" oid0 =
        (Res.ok (newAnnouncement "hello" "2999-01-01T00:00:00" "alice" (some "")
            "2026-01-01T00:00:00" ++ [("_id", vOid oid0), ("id", vStr oid0)]),
         { db0 with announcements :=
             db0.announcements ++ [newAnnouncement "hello" "2999-01-01T00:00:00" "alice"
               (some "") "2026-01-01T00:00:00" ++ [("_id", vOid oid0)]] })
    ∧ getVal (newAnnouncement "hello" "2999-01-01T00:00:00" "alice" (some "")
          "2026-01-01T00:00:00" ++ [("_id", vOid oid0)]) "start_date" = some (vStr "")
    ∧ mongoMatchStartNull (newAnnouncement "hello" "2999-01-01T00:00:00" "alice" (some "")
          "2026-01-01T00:00:00" ++ [("_id", vOid oid0)]) = false
    ∧ mongoMatchStartLte (newAnnouncement "hello" "2999-01-01T00:00:00" "alice" (some "")
          "2026-01-01T00:00:00" ++ [("_id", vOid oid0)]) "2026-06-01T00:00:00" = true
    ∧ mongoActive "2026-06-01T00:00:00" (newAnnouncement "hello" "2999-01-01T00:00:00" "alice"
          (some "") "2026-01-01T00:00:00" ++ [("_id", vOid oid0)])
        = mongoMatchExpGte (newAnnouncement "hello" "2999-01-01T00:00:00" "alice" (some "")
            "2026-01-01T00:00:00" ++ [("_id", vOid oid0)]) "2026-06-01T00:00:00" :=
  empty_start_date_bypasses_validation db0 "hello" "2999-01-01T00:00:00" "alice"
    "2026-01-01T00:00:00" oid0 "2026-06-01T00:00:00" now0 ⟨1094998, 0, none⟩
    (by decide) (by decide) (by decide)
